import Mathlib

/-!
Shallow embedding of the `soeren97/Cereal` repository: a small CRUD web
service (FastAPI + SQLAlchemy) over a `cereal` table and a `users` table.

Embedding conventions:
* SQL `Float` columns are modelled as `Rat`; `Integer` columns as `Int`;
  `String`/`Enum` columns as `String`.
* The two database tables are modelled as lists of rows; the SQLAlchemy
  session is modelled by reading/writing those lists.  MySQL's
  auto-increment id is modelled as a counter (`nextCerealId`, `nextUserId`)
  in the state, together with the invariant (stated as a hypothesis where
  needed) that every stored id is below the counter.
* `raise HTTPException(...)` is modelled as `Except.error` carrying the
  status code and detail string; an exception aborts the handler, so state
  mutations after the raise do not happen.
* Each HTTP handler of `CerealAPI.setup_routes` becomes a function
  `State → inputs → HandlerOut α` where `HandlerOut` records the response
  (`Except HTTPError α`), the post-state, and how many store connections the
  executed path opened (`db = self.SessionLocal()`) and closed
  (`db.close()`).
-/

namespace CerealRepo

/-- HTTP error raised via FastAPI's `HTTPException(status_code, detail)`. -/
structure HTTPError where
  status : Nat
  detail : String
deriving Repr, DecidableEq

/-- Row of the `cereal` table (`src/Cereal/server/classes.py`, class
`Cereal`).  Column `type` is `Enum("C", "H")`, modelled as `String`; float
columns are modelled as `Rat`. -/
structure CerealRow where
  id : Int
  name : String
  mfr : String
  type : String
  calories : Int
  protein : Int
  fat : Int
  sodium : Int
  fiber : Rat
  carbo : Rat
  sugars : Int
  potass : Int
  vitamins : Int
  shelf : Int
  weight : Rat
  cups : Rat
  rating : Rat
deriving Repr, DecidableEq

/-- Row of the `users` table (`src/Cereal/server/Users.py`, class `User`). -/
structure UserRow where
  id : Int
  username : String
  email : String
  hashed_password : String
  rights : String
deriving Repr, DecidableEq

/-- Request body of `POST /cereals/` (`src/Cereal/API/Classes.py`, pydantic
model `APICereal`): all cereal attributes, with `id` optional.  The pydantic
model declares `type : Literal["C", "H"]`; it is modelled as `String` here
because the handler `create_cereal` re-checks membership in `["C", "H"]`
itself (both layers answer 422 on violation). -/
structure APICereal where
  id : Option Int
  name : String
  mfr : String
  type : String
  calories : Int
  protein : Int
  fat : Int
  sodium : Int
  fiber : Rat
  carbo : Rat
  sugars : Int
  potass : Int
  vitamins : Int
  shelf : Int
  weight : Rat
  cups : Rat
  rating : Rat
deriving Repr, DecidableEq

/-- Combined persistent state plus the one mutable facade field: the two
tables with their auto-increment counters, and `CerealAPI.rights`
(initialised to `"User"` in `CerealAPI.__init__` and overwritten by a
successful login). -/
structure State where
  cereals : List CerealRow
  nextCerealId : Int
  users : List UserRow
  nextUserId : Int
  rights : String
deriving Repr, DecidableEq

/-- Outcome of one HTTP handler call: the response or raised error, the
state after the call, and the number of store connections the executed path
opened (`self.SessionLocal()`) and closed (`db.close()`). -/
structure HandlerOut (α : Type) where
  result : Except HTTPError α
  state : State
  opened : Nat
  closed : Nat

/-- The `VALID_FIELDS` whitelist from `src/Cereal/constants.py`. -/
def VALID_FIELDS : List String :=
  ["id", "name", "mfr", "type", "calories", "protein", "fat", "sodium",
   "fiber", "carbo", "sugars", "potass", "vitamins", "shelf", "weight",
   "cups", "rating"]

/-- Dynamically typed column value, for the `value: Any` search parameter
and the result of `getattr(Cereal, field)` on a row. -/
inductive Value where
  | int (i : Int)
  | str (s : String)
  | rat (q : Rat)
deriving Repr, DecidableEq

/-- Field access `getattr(c, field)` for a cereal row and a field name.  Only ever
applied under the guard `field ∈ VALID_FIELDS`, so the catch-all arm is
unreachable in `get_cereals`. -/
def getattrCereal (c : CerealRow) : String → Value
  | "id" => .int c.id
  | "name" => .str c.name
  | "mfr" => .str c.mfr
  | "type" => .str c.type
  | "calories" => .int c.calories
  | "protein" => .int c.protein
  | "fat" => .int c.fat
  | "sodium" => .int c.sodium
  | "fiber" => .rat c.fiber
  | "carbo" => .rat c.carbo
  | "sugars" => .int c.sugars
  | "potass" => .int c.potass
  | "vitamins" => .int c.vitamins
  | "shelf" => .int c.shelf
  | "weight" => .rat c.weight
  | "cups" => .rat c.cups
  | "rating" => .rat c.rating
  | _ => .str ""

/-- SQL `column == value`: equality within the same type, `false` across
types. -/
def valueEq : Value → Value → Bool
  | .int a, .int b => a == b
  | .str a, .str b => a == b
  | .rat a, .rat b => a == b
  | _, _ => false

/-- SQL `column > value`. -/
def valueGt : Value → Value → Bool
  | .int a, .int b => decide (b < a)
  | .str a, .str b => decide (b < a)
  | .rat a, .rat b => decide (b < a)
  | _, _ => false

/-- SQL `column < value`. -/
def valueLt : Value → Value → Bool
  | .int a, .int b => decide (a < b)
  | .str a, .str b => decide (a < b)
  | .rat a, .rat b => decide (a < b)
  | _, _ => false

/-- The query built by `Cereal.get_cereals` once `field` is known to be a
whitelisted field name: `query = db.query(Cereal)` optionally narrowed by
one `.filter(...)`.  When `value` is `None`, or when `operator` is none of
`"eq"`, `"gt"`, `"lt"` (that branch only constructs `HTTPException()`
without raising it), no filter is applied and `query.all()` is every row. -/
def queryRows (cereals : List CerealRow) (field : String)
    (value : Option Value) (operator : Option String) : List CerealRow :=
  match value with
  | none => cereals
  | some v =>
    if operator = some "eq" then
      cereals.filter fun c => valueEq (getattrCereal c field) v
    else if operator = some "gt" then
      cereals.filter fun c => valueGt (getattrCereal c field) v
    else if operator = some "lt" then
      cereals.filter fun c => valueLt (getattrCereal c field) v
    else cereals

/-- Search `Cereal.get_cereals` (`src/Cereal/server/classes.py`): search with
optional filtering.  `field = None` returns the whole table; a field name
outside `VALID_FIELDS` raises 400; otherwise the (possibly unfiltered)
query runs.  An empty result list raises 404 instead of being returned. -/
def get_cereals (cereals : List CerealRow) (field : Option String)
    (value : Option Value) (operator : Option String) :
    Except HTTPError (List CerealRow) :=
  let step : Except HTTPError (List CerealRow) :=
    match field with
    | none => .ok cereals
    | some f =>
      if f ∈ VALID_FIELDS then .ok (queryRows cereals f value operator)
      else .error ⟨400, s!"Invalid field provided: {f}."⟩
  match step with
  | .error e => .error e
  | .ok results =>
    if results.isEmpty then
      .error ⟨404, "No cereals found with the specified criteria"⟩
    else .ok results

/-- Lookup `Cereal.get_cereal_by_id` (`src/Cereal/server/classes.py`): point
lookup by id; `query.filter(Cereal.id == cereal_id).first()` is the first matching
row.  The session is closed before the `None` check, so both paths close. -/
def get_cereal_by_id (cereals : List CerealRow) (cereal_id : Int) :
    Except HTTPError CerealRow :=
  match cereals.find? (fun c => c.id == cereal_id) with
  | none => .error ⟨404, "Cereal not found"⟩
  | some c => .ok c

/-- Modelled from the spec: `pwd_context` is imported from
`Cereal.constants` but not defined in any file under `src/` (the constants
module as shipped lacks it).  Spec §4.3: passwords are hashed with a
salted, slow hash before storage.  Deterministic stand-in: an injective
tagging of the plaintext. -/
def pwdHash (password : String) : String := "argon2$" ++ password

/-- Modelled from the spec: `pwd_context.verify` — compare the supplied
plaintext against the stored hash via the hash function's verify
primitive. -/
def pwdVerify (password hashed : String) : Bool := hashed == pwdHash password

/-- User creation `User.create_user` (`src/Cereal/server/Users.py`): hash the password,
insert a row with `rights = "User"` and the next auto-increment id, commit,
close the session. -/
def create_user (s : State) (username email password : String) : State :=
  { s with
    users := s.users ++
      [{ id := s.nextUserId, username := username, email := email,
         hashed_password := pwdHash password, rights := "User" }]
    nextUserId := s.nextUserId + 1 }

/-- The cereal row written by `create_cereal` from a payload: every
attribute taken from the payload (`cereal.model_dump()`), with `id` the
given integer (the existing id on the update path, the auto-increment id on
the insert path). -/
def rowFromPayload (p : APICereal) (i : Int) : CerealRow :=
  { id := i, name := p.name, mfr := p.mfr, type := p.type,
    calories := p.calories, protein := p.protein, fat := p.fat,
    sodium := p.sodium, fiber := p.fiber, carbo := p.carbo,
    sugars := p.sugars, potass := p.potass, vitamins := p.vitamins,
    shelf := p.shelf, weight := p.weight, cups := p.cups,
    rating := p.rating }

/-- In-place update of the first row whose id matches, modelling
`setattr` on the ORM object returned by `.first()` followed by commit. -/
def replaceFirstCereal : List CerealRow → Int → CerealRow → List CerealRow
  | [], _, _ => []
  | c :: rest, i, r =>
    if c.id == i then r :: rest else c :: replaceFirstCereal rest i r

/-- Removal of the first row whose id matches, modelling
`db.delete(cereal)` on the object returned by `.first()`. -/
def removeFirstCereal : List CerealRow → Int → List CerealRow
  | [], _ => []
  | c :: rest, i => if c.id == i then rest else c :: removeFirstCereal rest i

/-- Handler of `POST /register` (`CerealAPI.setup_routes.register`).  The
duplicate-email pre-check is `any(user.email == email for user in db)`
where `db = self.SessionLocal()` is a freshly opened session: iterating a
SQLAlchemy `Session` yields the pending/persistent instances already held
by that session, not the rows of any table, and a fresh session holds none
— so the generator ranges over the empty list and the check never fires.
On the (only reachable) path, `User.create_user` inserts and closes. -/
def register (s : State) (username email password : String) :
    HandlerOut String :=
  if ([] : List UserRow).any (fun u => u.email == email) then
    { result := .error ⟨400, "Email already registered"⟩,
      state := s, opened := 1, closed := 0 }
  else
    { result := .ok "User registered successfully",
      state := create_user s username email password,
      opened := 1, closed := 1 }

/-- Handler of `POST /login` (`CerealAPI.setup_routes.login`): look up the
user by email (`query.filter(User.email == email).first()`), answer 401
with distinct details for an unknown email and for a wrong password, and on
success close the session and overwrite `self.rights` with the user's
rights.  The two error paths raise before `db.close()`. -/
def login (s : State) (email password : String) : HandlerOut String :=
  match s.users.find? (fun u => u.email == email) with
  | none =>
    { result := .error ⟨401, "User does not exist."⟩,
      state := s, opened := 1, closed := 0 }
  | some user =>
    if ¬ pwdVerify password user.hashed_password then
      { result := .error ⟨401, "Wrong password."⟩,
        state := s, opened := 1, closed := 0 }
    else
      { result := .ok "Login successful",
        state := { s with rights := user.rights },
        opened := 1, closed := 1 }

/-- Handler of `GET /cereals/{cereal_id}`
(`CerealAPI.setup_routes.read_cereal`): delegates to
`Cereal.get_cereal_by_id`, which closes the session before its `None`
check, so both paths close the one connection opened. -/
def read_cereal (s : State) (cereal_id : Int) : HandlerOut CerealRow :=
  { result := get_cereal_by_id s.cereals cereal_id,
    state := s, opened := 1, closed := 1 }

/-- Handler of `DELETE /cereals/{cereal_id}`
(`CerealAPI.setup_routes.delete_cereal`): 403 before any session is opened
when `self.rights != "Admin"`; then 404 (session left open) when no row has
the id; otherwise delete, commit, close. -/
def delete_cereal (s : State) (cereal_id : Int) : HandlerOut String :=
  if s.rights ≠ "Admin" then
    { result := .error ⟨403,
        "Access denied. You are not authorized to access this resource."⟩,
      state := s, opened := 0, closed := 0 }
  else
    match s.cereals.find? (fun c => c.id == cereal_id) with
    | none =>
      { result := .error ⟨404, s!"Cereal with ID {cereal_id} not found"⟩,
        state := s, opened := 1, closed := 0 }
    | some _ =>
      { result := .ok s!"Cereal with ID {cereal_id} deleted successfully",
        state := { s with cereals := removeFirstCereal s.cereals cereal_id },
        opened := 1, closed := 1 }

/-- Handler of `GET /cereals` (`CerealAPI.setup_routes.search_cereals`):
opens a session, calls `Cereal.get_cereals` with the three (non-`None`)
query parameters, and returns without any `db.close()` on any path. -/
def search_cereals (s : State) (field : String) (value : Value)
    (operator : String) : HandlerOut (List CerealRow) :=
  { result := get_cereals s.cereals (some field) (some value) (some operator),
    state := s, opened := 1, closed := 0 }

/-- Handler of `POST /cereals/` (`CerealAPI.setup_routes.create_cereal`).
With an id present: overwrite every attribute of the first row having that
id with the payload's values (`model_dump` includes `id`, so the id is
rewritten with its own value and stays fixed) and close, or 404 with the
session left open.  With no id: insert a fresh row when `type` is `"C"` or
`"H"` and close, else 422 with the session left open. -/
def create_cereal (s : State) (cereal : APICereal) : HandlerOut CerealRow :=
  match cereal.id with
  | some i =>
    match s.cereals.find? (fun c => c.id == i) with
    | some _ =>
      { result := .ok (rowFromPayload cereal i),
        state :=
          { s with
            cereals := replaceFirstCereal s.cereals i (rowFromPayload cereal i) },
        opened := 1, closed := 1 }
    | none =>
      { result := .error ⟨404,
          "Cereal not found with provided ID if you wish to create " ++
          "a new entry Make id none."⟩,
        state := s, opened := 1, closed := 0 }
  | none =>
    if cereal.type ∈ ["C", "H"] then
      { result := .ok (rowFromPayload cereal s.nextCerealId),
        state :=
          { s with
            cereals := s.cereals ++ [rowFromPayload cereal s.nextCerealId],
            nextCerealId := s.nextCerealId + 1 },
        opened := 1, closed := 1 }
    else
      { result := .error ⟨422,
          "Invalid value for 'type'. Must be 'C' or 'H'."⟩,
        state := s, opened := 1, closed := 0 }

/-! Concrete sample data used by witness theorems. -/

/-- Sample stored row (the spec's §8 example record, id already assigned). -/
def branRow : CerealRow :=
  { id := 1, name := "Bran", mfr := "K", type := "C", calories := 90,
    protein := 3, fat := 0, sodium := 200, fiber := 4, carbo := 15,
    sugars := 6, potass := 320, vitamins := 25, shelf := 2, weight := 1,
    cups := 1, rating := 41 }

/-- Sample creation payload (no id) matching `branRow`'s attributes. -/
def branPayload : APICereal :=
  { id := none, name := "Bran", mfr := "K", type := "C", calories := 90,
    protein := 3, fat := 0, sodium := 200, fiber := 4, carbo := 15,
    sugars := 6, potass := 320, vitamins := 25, shelf := 2, weight := 1,
    cups := 1, rating := 41 }

/-- Sample registered user. -/
def aliceRow : UserRow :=
  { id := 1, username := "alice", email := "alice@example.com",
    hashed_password := pwdHash "alicepw", rights := "Admin" }

/-- Sample state: one stored cereal, one admin user, facade role `"User"`. -/
def sampleState : State :=
  { cereals := [branRow], nextCerealId := 2, users := [aliceRow],
    nextUserId := 2, rights := "User" }

/-- Sample state whose facade role is `"Admin"`. -/
def adminState : State :=
  { sampleState with rights := "Admin" }

/-! Helper lemmas about the embedded operations. -/

/-- A successful `get_cereals` result is never the empty list. -/
theorem get_cereals_ok_ne_nil {cereals : List CerealRow}
    {field : Option String} {value : Option Value} {operator : Option String}
    {l : List CerealRow}
    (h : get_cereals cereals field value operator = .ok l) : l ≠ [] := by
  unfold get_cereals at h
  rcases field with _ | f
  · dsimp only at h
    split at h
    · exact absurd h (by simp)
    · rename_i hne
      cases h
      simpa [List.isEmpty_iff] using hne
  · dsimp only at h
    by_cases hf : f ∈ VALID_FIELDS
    · rw [if_pos hf] at h
      dsimp only at h
      split at h
      · exact absurd h (by simp)
      · rename_i hne
        cases h
        simpa [List.isEmpty_iff] using hne
    · rw [if_neg hf] at h
      exact absurd h (by simp)

/-- On a whitelisted field, `get_cereals` returns the query rows, or 404
when they are empty. -/
theorem get_cereals_valid_field (cereals : List CerealRow) (f : String)
    (value : Option Value) (operator : Option String)
    (hf : f ∈ VALID_FIELDS) :
    get_cereals cereals (some f) value operator =
      if queryRows cereals f value operator = [] then
        .error ⟨404, "No cereals found with the specified criteria"⟩
      else .ok (queryRows cereals f value operator) := by
  unfold get_cereals
  dsimp only
  rw [if_pos hf]
  dsimp only
  by_cases h : queryRows cereals f value operator = []
  · rw [if_pos h, if_pos (by simpa [List.isEmpty_iff] using h)]
  · rw [if_neg h, if_neg (by simpa [List.isEmpty_iff] using h)]

/-- When the value is absent or the operator is none of `"eq"`, `"gt"`,
`"lt"`, the query is left unfiltered and yields every row. -/
theorem queryRows_unfiltered (cereals : List CerealRow) (f : String)
    (value : Option Value) (operator : Option String)
    (h : value = none ∨ (operator ≠ some "eq" ∧ operator ≠ some "gt" ∧
      operator ≠ some "lt")) :
    queryRows cereals f value operator = cereals := by
  unfold queryRows
  rcases value with _ | v
  · rfl
  · rcases h with h | ⟨h1, h2, h3⟩
    · exact absurd h (by simp)
    · dsimp only
      rw [if_neg h1, if_neg h2, if_neg h3]

/-! Claim theorems. -/

/-- C1: for every search (`Cereal.get_cereals`), a successful result is
never an empty list, and whenever a whitelisted-field filter matches zero
rows the call fails with the 404 "No cereals found" error instead of
returning an empty collection. -/
theorem C1_empty_search_is_not_found (cereals : List CerealRow)
    (field : Option String) (value : Option Value)
    (operator : Option String) :
    (∀ l, get_cereals cereals field value operator = .ok l → l ≠ []) ∧
    (∀ f, field = some f → f ∈ VALID_FIELDS →
      queryRows cereals f value operator = [] →
      get_cereals cereals field value operator =
        .error ⟨404, "No cereals found with the specified criteria"⟩) := by
  refine ⟨fun l hl => get_cereals_ok_ne_nil hl, fun f hfield hf hempty => ?_⟩
  subst hfield
  rw [get_cereals_valid_field cereals f value operator hf, if_pos hempty]

/-- C1 witness: a filter matching zero rows (equality on `name` against a
value no stored row has) yields the 404 error. -/
theorem C1_empty_search_is_not_found_witness :
    get_cereals [branRow] (some "name") (some (Value.str "Oats"))
        (some "eq") =
      .error ⟨404, "No cereals found with the specified criteria"⟩ :=
  (C1_empty_search_is_not_found [branRow] (some "name")
    (some (Value.str "Oats")) (some "eq")).2 "name" rfl (by decide) (by decide)

/-- C10: in `Cereal.get_cereals`, with a whitelisted field and either a
null value or an operator outside `{"eq", "gt", "lt"}`, no error is raised
on the fall-through branch (the constructed `HTTPException` is discarded)
and every stored row is returned unfiltered — failing with 404 only when
the table is empty. -/
theorem C10_fallthrough_returns_all_rows (cereals : List CerealRow)
    (f : String) (value : Option Value) (operator : Option String)
    (hf : f ∈ VALID_FIELDS)
    (h : value = none ∨ (operator ≠ some "eq" ∧ operator ≠ some "gt" ∧
      operator ≠ some "lt")) :
    get_cereals cereals (some f) value operator =
      if cereals = [] then
        .error ⟨404, "No cereals found with the specified criteria"⟩
      else .ok cereals := by
  rw [get_cereals_valid_field cereals f value operator hf,
    queryRows_unfiltered cereals f value operator h]

/-- C10 witness: a non-null value with the unsupported operator `"neq"`
returns the whole (nonempty) table unfiltered. -/
theorem C10_fallthrough_returns_all_rows_witness :
    get_cereals [branRow] (some "calories") (some (Value.int 9000))
        (some "neq") =
      if ([branRow] : List CerealRow) = [] then
        .error ⟨404, "No cereals found with the specified criteria"⟩
      else .ok [branRow] :=
  C10_fallthrough_returns_all_rows [branRow] "calories"
    (some (Value.int 9000)) (some "neq") (by decide)
    (Or.inr ⟨by decide, by decide, by decide⟩)

/-- C2: on `DELETE /cereals/{id}`, a caller whose current role is not
`"Admin"` always gets the 403 Forbidden error with the store untouched; an
admin deleting an id that no stored row carries always gets the 404
NotFound error with the store state unchanged. -/
theorem C2_delete_forbidden_and_notfound (s : State) (cereal_id : Int) :
    (s.rights ≠ "Admin" →
      (delete_cereal s cereal_id).result = .error ⟨403,
        "Access denied. You are not authorized to access this resource."⟩ ∧
      (delete_cereal s cereal_id).state = s) ∧
    (s.rights = "Admin" → (∀ c ∈ s.cereals, c.id ≠ cereal_id) →
      (delete_cereal s cereal_id).result =
        .error ⟨404, s!"Cereal with ID {cereal_id} not found"⟩ ∧
      (delete_cereal s cereal_id).state = s) := by
  constructor
  · intro h
    simp [delete_cereal, h]
  · intro h hnone
    have hfind : s.cereals.find? (fun c => c.id == cereal_id) = none :=
      List.find?_eq_none.mpr fun c hc => by simp [hnone c hc]
    simp [delete_cereal, h, hfind]

/-- C2 witness: with role `"User"` a delete is 403; with role `"Admin"`,
deleting the absent id 77 is 404 and leaves the state unchanged. -/
theorem C2_delete_forbidden_and_notfound_witness :
    ((delete_cereal sampleState 1).result = .error ⟨403,
        "Access denied. You are not authorized to access this resource."⟩ ∧
      (delete_cereal sampleState 1).state = sampleState) ∧
    ((delete_cereal adminState 77).result =
        .error ⟨404, "Cereal with ID 77 not found"⟩ ∧
      (delete_cereal adminState 77).state = adminState) :=
  ⟨(C2_delete_forbidden_and_notfound sampleState 1).1 (by decide),
   (C2_delete_forbidden_and_notfound adminState 77).2 rfl (by decide)⟩

/-- C3: on `POST /cereals/`, a payload carrying an id either updates the
existing record with that id — every attribute overwritten with the
supplied values, the id staying fixed — or fails 404 when no record has
that id (state unchanged); a payload without an id (of valid type) inserts
a new record. -/
theorem C3_create_routes_update_or_insert (s : State) (p : APICereal) :
    (∀ i, p.id = some i →
      ((∃ c ∈ s.cereals, c.id = i) →
        (create_cereal s p).result = .ok (rowFromPayload p i) ∧
        (rowFromPayload p i).id = i ∧
        (create_cereal s p).state.cereals =
          replaceFirstCereal s.cereals i (rowFromPayload p i)) ∧
      ((∀ c ∈ s.cereals, c.id ≠ i) →
        (create_cereal s p).result = .error ⟨404,
          "Cereal not found with provided ID if you wish to create " ++
          "a new entry Make id none."⟩ ∧
        (create_cereal s p).state = s)) ∧
    (p.id = none → p.type ∈ ["C", "H"] →
      (create_cereal s p).result = .ok (rowFromPayload p s.nextCerealId) ∧
      (create_cereal s p).state.cereals =
        s.cereals ++ [rowFromPayload p s.nextCerealId]) := by
  refine ⟨fun i hi => ⟨fun hex => ?_, fun hnone => ?_⟩, fun hid hty => ?_⟩
  · obtain ⟨c, hc, hcid⟩ := hex
    have hsome : (s.cereals.find? (fun c => c.id == i)).isSome :=
      List.find?_isSome.mpr ⟨c, hc, by simp [hcid]⟩
    obtain ⟨c', hc'⟩ := Option.isSome_iff_exists.mp hsome
    simp [create_cereal, hi, hc', rowFromPayload]
  · have hfind : s.cereals.find? (fun c => c.id == i) = none :=
      List.find?_eq_none.mpr fun c hc => by simp [hnone c hc]
    simp [create_cereal, hi, hfind]
  · simp [create_cereal, hid, hty]

/-- C3 witness: updating stored id 1 overwrites the row in place; id 77 is
404; an id-less payload of type `"C"` is inserted. -/
theorem C3_create_routes_update_or_insert_witness :
    ((create_cereal sampleState { branPayload with id := some 1 }).result =
        .ok (rowFromPayload { branPayload with id := some 1 } 1) ∧
      (rowFromPayload { branPayload with id := some 1 } 1).id = 1 ∧
      (create_cereal sampleState
          { branPayload with id := some 1 }).state.cereals =
        replaceFirstCereal sampleState.cereals 1
          (rowFromPayload { branPayload with id := some 1 } 1)) ∧
    ((create_cereal sampleState { branPayload with id := some 77 }).result =
        .error ⟨404,
          "Cereal not found with provided ID if you wish to create " ++
          "a new entry Make id none."⟩ ∧
      (create_cereal sampleState { branPayload with id := some 77 }).state =
        sampleState) ∧
    ((create_cereal sampleState branPayload).result =
        .ok (rowFromPayload branPayload sampleState.nextCerealId) ∧
      (create_cereal sampleState branPayload).state.cereals =
        sampleState.cereals ++
          [rowFromPayload branPayload sampleState.nextCerealId]) :=
  ⟨((C3_create_routes_update_or_insert sampleState
        { branPayload with id := some 1 }).1 1 rfl).1
      ⟨branRow, by decide, by decide⟩,
   ((C3_create_routes_update_or_insert sampleState
        { branPayload with id := some 77 }).1 77 rfl).2 (by decide),
   (C3_create_routes_update_or_insert sampleState branPayload).2 rfl
     (by decide)⟩

/-- C5: an id-less payload whose `type` is neither `"C"` nor `"H"` always
makes `create_cereal` fail with the 422 invalid-type error, and the state —
in particular the record store — is unchanged. -/
theorem C5_invalid_type_rejected (s : State) (p : APICereal)
    (hid : p.id = none) (hty : p.type ∉ (["C", "H"] : List String)) :
    (create_cereal s p).result =
      .error ⟨422, "Invalid value for 'type'. Must be 'C' or 'H'."⟩ ∧
    (create_cereal s p).state = s := by
  simp [create_cereal, hid, hty]

/-- C5 witness: creating with type `"X"` is rejected with 422 and the
state is untouched. -/
theorem C5_invalid_type_rejected_witness :
    (create_cereal sampleState { branPayload with type := "X" }).result =
      .error ⟨422, "Invalid value for 'type'. Must be 'C' or 'H'."⟩ ∧
    (create_cereal sampleState { branPayload with type := "X" }).state =
      sampleState :=
  C5_invalid_type_rejected sampleState { branPayload with type := "X" }
    rfl (by decide)

/-- Every non-id attribute of a stored row equals the corresponding
attribute of a creation payload. -/
def attrsAgree (c : CerealRow) (p : APICereal) : Prop :=
  c.name = p.name ∧ c.mfr = p.mfr ∧ c.type = p.type ∧
  c.calories = p.calories ∧ c.protein = p.protein ∧ c.fat = p.fat ∧
  c.sodium = p.sodium ∧ c.fiber = p.fiber ∧ c.carbo = p.carbo ∧
  c.sugars = p.sugars ∧ c.potass = p.potass ∧ c.vitamins = p.vitamins ∧
  c.shelf = p.shelf ∧ c.weight = p.weight ∧ c.cups = p.cups ∧
  c.rating = p.rating

/-- C4: a valid id-less creation payload (type `"C"` or `"H"`) round-trips
through fetch-by-id: under the auto-increment invariant (every stored id is
below the counter), `create_cereal` stores a row under the assigned id, and
`get_cereal_by_id` on that id returns exactly that row, every attribute of
which equals the payload's. -/
theorem C4_create_roundtrip (s : State) (p : APICereal)
    (hid : p.id = none) (hty : p.type ∈ (["C", "H"] : List String))
    (hfresh : ∀ c ∈ s.cereals, c.id < s.nextCerealId) :
    (create_cereal s p).result = .ok (rowFromPayload p s.nextCerealId) ∧
    get_cereal_by_id (create_cereal s p).state.cereals s.nextCerealId =
      .ok (rowFromPayload p s.nextCerealId) ∧
    attrsAgree (rowFromPayload p s.nextCerealId) p := by
  have hstate : (create_cereal s p).state.cereals =
      s.cereals ++ [rowFromPayload p s.nextCerealId] := by
    simp [create_cereal, hid, hty]
  have hnone : s.cereals.find? (fun c => c.id == s.nextCerealId) = none :=
    List.find?_eq_none.mpr fun c hc => by
      simpa using ne_of_lt (hfresh c hc)
  refine ⟨by simp [create_cereal, hid, hty], ?_, ?_⟩
  · rw [hstate]
    unfold get_cereal_by_id
    rw [List.find?_append, hnone]
    simp [rowFromPayload]
  · exact ⟨rfl, rfl, rfl, rfl, rfl, rfl, rfl, rfl, rfl, rfl, rfl, rfl, rfl,
      rfl, rfl, rfl⟩

/-- C4 witness: the sample payload round-trips through the assigned id 2 of
the sample state. -/
theorem C4_create_roundtrip_witness :
    (create_cereal sampleState branPayload).result =
      .ok (rowFromPayload branPayload sampleState.nextCerealId) ∧
    get_cereal_by_id (create_cereal sampleState branPayload).state.cereals
        sampleState.nextCerealId =
      .ok (rowFromPayload branPayload sampleState.nextCerealId) ∧
    attrsAgree (rowFromPayload branPayload sampleState.nextCerealId)
      branPayload :=
  C4_create_roundtrip sampleState branPayload rfl (by decide) (by decide)

/-- C6: login answers an unknown email and a wrong password for a known
email with two distinct 401 errors (different detail strings); a correct
login succeeds and stores the user's role in the shared slot, and a
subsequent delete on the resulting state can succeed only when that role is
`"Admin"`. -/
theorem C6_login_distinct_errors_and_role_gate (s : State)
    (email password : String) :
    (s.users.find? (fun usr => usr.email == email) = none →
      (login s email password).result =
        .error ⟨401, "User does not exist."⟩) ∧
    (∀ u, s.users.find? (fun usr => usr.email == email) = some u →
      pwdVerify password u.hashed_password = false →
      (login s email password).result = .error ⟨401, "Wrong password."⟩) ∧
    (HTTPError.mk 401 "User does not exist." ≠
      HTTPError.mk 401 "Wrong password.") ∧
    (∀ u, s.users.find? (fun usr => usr.email == email) = some u →
      pwdVerify password u.hashed_password = true →
      (login s email password).result = .ok "Login successful" ∧
      (login s email password).state.rights = u.rights ∧
      ∀ cid m,
        (delete_cereal (login s email password).state cid).result = .ok m →
        u.rights = "Admin") := by
  refine ⟨fun hnone => ?_, fun u hu hbad => ?_, by decide,
    fun u hu hok => ?_⟩
  · simp [login, hnone]
  · simp [login, hu, hbad]
  · have hstate : (login s email password).state =
        { s with rights := u.rights } := by
      simp [login, hu, hok]
    refine ⟨by simp [login, hu, hok], by rw [hstate], fun cid m hdel => ?_⟩
    by_contra hne
    rw [hstate] at hdel
    simp [delete_cereal, hne] at hdel

/-- C6 witness: on the sample state, an unknown email and a wrong password
give the two distinct 401 errors; alice's correct login succeeds, sets the
slot to her `"Admin"` role, and a subsequent delete of id 1 succeeding
certifies the role is `"Admin"`. -/
theorem C6_login_distinct_errors_and_role_gate_witness :
    (login sampleState "nobody@example.com" "pw").result =
      .error ⟨401, "User does not exist."⟩ ∧
    (login sampleState "alice@example.com" "wrongpw").result =
      .error ⟨401, "Wrong password."⟩ ∧
    (login sampleState "alice@example.com" "alicepw").result =
      .ok "Login successful" ∧
    (login sampleState "alice@example.com" "alicepw").state.rights =
      aliceRow.rights ∧
    aliceRow.rights = "Admin" :=
  ⟨(C6_login_distinct_errors_and_role_gate sampleState "nobody@example.com"
      "pw").1 rfl,
   (C6_login_distinct_errors_and_role_gate sampleState "alice@example.com"
      "wrongpw").2.1 aliceRow rfl (by decide),
   ((C6_login_distinct_errors_and_role_gate sampleState "alice@example.com"
      "alicepw").2.2.2 aliceRow rfl (by decide)).1,
   ((C6_login_distinct_errors_and_role_gate sampleState "alice@example.com"
      "alicepw").2.2.2 aliceRow rfl (by decide)).2.1,
   ((C6_login_distinct_errors_and_role_gate sampleState "alice@example.com"
      "alicepw").2.2.2 aliceRow rfl (by decide)).2.2 1
     "Cereal with ID 1 deleted successfully" rfl⟩

/-- C7 (code bug): the duplicate-email pre-check of `register` iterates the
freshly opened session instead of the users table, so it never fires: with
alice already stored under `"alice@example.com"`, registering bob under the
same email returns 200 "User registered successfully" and a second user row
with that email is stored — instead of the claimed 400 Conflict with no new
user. -/
theorem C7_duplicate_register_not_rejected :
    (register sampleState "bob" "alice@example.com" "bobpw").result =
      .ok "User registered successfully" ∧
    ((register sampleState "bob" "alice@example.com" "bobpw").state.users.filter
        (fun u => u.email == "alice@example.com")).length = 2 :=
  ⟨rfl, rfl⟩

/-- C8: the facade's single mutable slot is `rights`: a successful login
rewrites exactly it (to the found user's role) and nothing else, a failed
login changes nothing, both tables and counters are untouched by login, and
the delete operation reads the slot — any non-`"Admin"` content forces the
403 error. -/
theorem C8_single_role_slot (s : State) (email password : String) :
    (∀ m, (login s email password).result = .ok m →
      ∃ u, s.users.find? (fun usr => usr.email == email) = some u ∧
        (login s email password).state = { s with rights := u.rights }) ∧
    (∀ e, (login s email password).result = .error e →
      (login s email password).state = s) ∧
    (login s email password).state.cereals = s.cereals ∧
    (login s email password).state.users = s.users ∧
    (login s email password).state.nextCerealId = s.nextCerealId ∧
    (login s email password).state.nextUserId = s.nextUserId ∧
    (s.rights ≠ "Admin" → ∀ cid,
      (delete_cereal s cid).result = .error ⟨403,
        "Access denied. You are not authorized to access this resource."⟩) := by
  have hgate : s.rights ≠ "Admin" → ∀ cid,
      (delete_cereal s cid).result = .error ⟨403,
        "Access denied. You are not authorized to access this resource."⟩ :=
    fun hne cid => by simp [delete_cereal, hne]
  rcases hfind : s.users.find? (fun usr => usr.email == email) with _ | u
  · have hst : (login s email password).state = s := by simp [login, hfind]
    have hres : (login s email password).result =
        .error ⟨401, "User does not exist."⟩ := by simp [login, hfind]
    exact ⟨fun m hm => absurd (hres ▸ hm) (by simp),
      fun e _ => hst, by rw [hst], by rw [hst], by rw [hst], by rw [hst],
      hgate⟩
  · by_cases hv : pwdVerify password u.hashed_password
    · have hst : (login s email password).state =
          { s with rights := u.rights } := by simp [login, hfind, hv]
      have hres : (login s email password).result = .ok "Login successful" :=
        by simp [login, hfind, hv]
      exact ⟨fun m _ => ⟨u, hfind, hst⟩,
        fun e he => absurd (hres ▸ he) (by simp),
        by rw [hst], by rw [hst], by rw [hst], by rw [hst], hgate⟩
    · have hst : (login s email password).state = s := by
        simp [login, hfind, hv]
      have hres : (login s email password).result =
          .error ⟨401, "Wrong password."⟩ := by simp [login, hfind, hv]
      exact ⟨fun m hm => absurd (hres ▸ hm) (by simp),
        fun e _ => hst, by rw [hst], by rw [hst], by rw [hst], by rw [hst],
        hgate⟩

/-- C8 witness: a failed login leaves the sample state untouched, a
successful login leaves the user table untouched, and with the slot holding
`"User"` the delete of id 1 is refused with 403. -/
theorem C8_single_role_slot_witness :
    (login sampleState "nobody@example.com" "pw").state = sampleState ∧
    (login sampleState "alice@example.com" "alicepw").state.users =
      sampleState.users ∧
    (delete_cereal sampleState 1).result = .error ⟨403,
      "Access denied. You are not authorized to access this resource."⟩ :=
  ⟨(C8_single_role_slot sampleState "nobody@example.com" "pw").2.1
      ⟨401, "User does not exist."⟩ rfl,
   (C8_single_role_slot sampleState "alice@example.com" "alicepw").2.2.2.1,
   (C8_single_role_slot sampleState "x" "y").2.2.2.2.2.2 (by decide) 1⟩

/-- C9 counterexample: the search handler exits successfully with its
connection still open (one opened, none closed), refuting the claim that
every handler releases its connection on every exit path. -/
theorem C9_counterexample_search_leaks :
    (search_cereals sampleState "calories" (Value.int 90) "eq").result =
      .ok [branRow] ∧
    (search_cereals sampleState "calories" (Value.int 90) "eq").opened = 1 ∧
    (search_cereals sampleState "calories" (Value.int 90) "eq").closed = 0 :=
  ⟨rfl, rfl, rfl⟩

/-- C9 amended: each handler opens one store connection (delete's 403 path
opens none); fetch-by-id and register close it on every path, but login,
delete and create close it only on their success paths, and the search
handler never closes it at all. -/
theorem C9_amended_connection_release (s : State) (cid : Int)
    (username email password f op : String) (v : Value) (p : APICereal) :
    ((read_cereal s cid).opened = 1 ∧ (read_cereal s cid).closed = 1) ∧
    ((register s username email password).opened = 1 ∧
      (register s username email password).closed = 1) ∧
    ((search_cereals s f v op).opened = 1 ∧
      (search_cereals s f v op).closed = 0) ∧
    ((login s email password).opened = 1 ∧
      (login s email password).closed =
        match (login s email password).result with
        | .ok _ => 1
        | .error _ => 0) ∧
    ((delete_cereal s cid).opened =
        (if s.rights = "Admin" then 1 else 0) ∧
      (delete_cereal s cid).closed =
        match (delete_cereal s cid).result with
        | .ok _ => 1
        | .error _ => 0) ∧
    ((create_cereal s p).opened = 1 ∧
      (create_cereal s p).closed =
        match (create_cereal s p).result with
        | .ok _ => 1
        | .error _ => 0) := by
  refine ⟨⟨rfl, rfl⟩, ⟨rfl, rfl⟩, ⟨rfl, rfl⟩, ⟨?_, ?_⟩, ⟨?_, ?_⟩, ⟨?_, ?_⟩⟩
  · rcases hfind : s.users.find? (fun usr => usr.email == email) with _ | u
    · simp [login, hfind]
    · by_cases hv : pwdVerify password u.hashed_password <;>
        simp [login, hfind, hv]
  · rcases hfind : s.users.find? (fun usr => usr.email == email) with _ | u
    · simp [login, hfind]
    · by_cases hv : pwdVerify password u.hashed_password <;>
        simp [login, hfind, hv]
  · by_cases h : s.rights = "Admin"
    · rcases hfind : s.cereals.find? (fun c => c.id == cid) with _ | c <;>
        simp [delete_cereal, h, hfind]
    · simp [delete_cereal, h]
  · by_cases h : s.rights = "Admin"
    · rcases hfind : s.cereals.find? (fun c => c.id == cid) with _ | c <;>
        simp [delete_cereal, h, hfind]
    · simp [delete_cereal, h]
  · rcases hpid : p.id with _ | i
    · by_cases hty : p.type ∈ (["C", "H"] : List String) <;>
        simp [create_cereal, hpid, hty]
    · rcases hfind : s.cereals.find? (fun c => c.id == i) with _ | c <;>
        simp [create_cereal, hpid, hfind]
  · rcases hpid : p.id with _ | i
    · by_cases hty : p.type ∈ (["C", "H"] : List String) <;>
        simp [create_cereal, hpid, hty]
    · rcases hfind : s.cereals.find? (fun c => c.id == i) with _ | c <;>
        simp [create_cereal, hpid, hfind]

end CerealRepo
